import Mathlib

/-
Verification development for `QGIS_Linearize_geometry.py`.

The script defines two classes:
  * `GeometryConverter` — the linearization core (`linearize_geometry`,
    `convert_multicurve_to_multilinestring`, `convert_multisurface_to_multipolygon`,
    `is_multicurve`, `is_multisurface`);
  * `GeometryLinearizer` — the QGIS processing harness (`processAlgorithm`).

The osgeo.ogr geometry engine is external to the repository.  Following the
specification's interface section, it is modelled as a parameter (`Engine`)
providing the "flatten curves" operation (`GetLinearGeometry`, which may be
unsupported / raise for a given shape) and the "segmentize" operation
(`(GeometryValue, tolerance) -> GeometryValue`).

A central point of the embedding: the Python function
    def linearize_geometry(geom, segmentize_tolerance):
declares `segmentize_tolerance` as a required parameter with no default value,
while the recursive calls at lines 137, 147 and 195 pass a single argument
(`linearize_geometry(subgeom)` / `linearize_geometry(sub)`).  In Python such a
call raises `TypeError` at the call site, before the callee's body runs; the
embedding models those call sites accordingly.
-/

/-- OGR geometry subtype tags that the script can encounter.  Each tag exists in a
planar and a height-bearing (Z) form; the Z form is recorded by the `hasZ` flag of
`Geometry` below. -/
inductive GeomTag where
  | point
  | lineString
  | linearRing
  | polygon
  | multiPoint
  | multiLineString
  | multiPolygon
  | geometryCollection
  | circularString
  | compoundCurve
  | curvePolygon
  | multiCurve
  | multiSurface
  | curve
deriving DecidableEq, Repr

/-- GDAL base WKB type code of each tag (the values of `ogr.wkbPoint`,
`ogr.wkbCircularString`, ...).  `LinearRing` is GDAL's non-standard code 101. -/
def GeomTag.code : GeomTag → Nat
  | .point => 1
  | .lineString => 2
  | .linearRing => 101
  | .polygon => 3
  | .multiPoint => 4
  | .multiLineString => 5
  | .multiPolygon => 6
  | .geometryCollection => 7
  | .circularString => 8
  | .compoundCurve => 9
  | .curvePolygon => 10
  | .multiCurve => 11
  | .multiSurface => 12
  | .curve => 13

/-- The geometry type name reported by OGR's `GetGeometryName()` (uppercase,
shared between the planar and the Z variant of a type). -/
def GeomTag.ogrName : GeomTag → String
  | .point => "POINT"
  | .lineString => "LINESTRING"
  | .linearRing => "LINEARRING"
  | .polygon => "POLYGON"
  | .multiPoint => "MULTIPOINT"
  | .multiLineString => "MULTILINESTRING"
  | .multiPolygon => "MULTIPOLYGON"
  | .geometryCollection => "GEOMETRYCOLLECTION"
  | .circularString => "CIRCULARSTRING"
  | .compoundCurve => "COMPOUNDCURVE"
  | .curvePolygon => "CURVEPOLYGON"
  | .multiCurve => "MULTICURVE"
  | .multiSurface => "MULTISURFACE"
  | .curve => "CURVE"

/-- A geometry value: a subtype tag, the coordinate-dimensionality flag
(`hasZ = true` means planar-plus-height), and the ordered list of child
geometries (`GetGeometryRef(0) .. GetGeometryRef(count-1)`).  Coordinate data of
primitive geometries is not needed by any of the checked claims and is omitted;
the claims are about tags, dimensionality, child structure and control flow. -/
inductive Geometry where
  | mk (tag : GeomTag) (hasZ : Bool) (children : List Geometry)

def Geometry.tag : Geometry → GeomTag
  | .mk t _ _ => t

def Geometry.hasZ : Geometry → Bool
  | .mk _ z _ => z

def Geometry.children : Geometry → List Geometry
  | .mk _ _ cs => cs

/-- `GetGeometryType()`: the base code, plus 1000 for the height-bearing (ISO Z)
variant.  For the curve types this matches GDAL exactly (`ogr.wkbMultiCurveZ =
1011`, etc.); no comparison made by the script distinguishes the encodings of
linear Z types, so the uniform `+1000` is adequate for every checked claim. -/
def Geometry.GetGeometryType (g : Geometry) : Nat :=
  g.tag.code + (if g.hasZ then 1000 else 0)

/-- `GetGeometryName()`. -/
def Geometry.GetGeometryName (g : Geometry) : String :=
  g.tag.ogrName

/-- `GetGeometryCount()`. -/
def Geometry.GetGeometryCount (g : Geometry) : Nat :=
  g.children.length

/-- Python's `str.upper()` on one ASCII character. -/
def pyUpperChar (c : Char) : Char :=
  if 97 ≤ c.toNat ∧ c.toNat ≤ 122 then Char.ofNat (c.toNat - 32) else c

/-- Python's `str.upper()` (the names involved are ASCII). -/
def pyUpper (s : String) : String :=
  String.mk (s.data.map pyUpperChar)

/-- Python's substring test `pat in s` on strings, over the character lists. -/
def strIn (pat : List Char) : List Char → Bool
  | [] => pat.isEmpty
  | c :: rest => pat.isPrefixOf (c :: rest) || strIn pat rest

/-- `ogr.wkbMultiLineString`. -/
def wkbMultiLineString : Nat := 5

/-- `ogr.wkbMultiPolygon`. -/
def wkbMultiPolygon : Nat := 6

/-- `ogr.wkbMultiCurve`. -/
def wkbMultiCurve : Nat := 11

/-- `ogr.wkbMultiSurface`. -/
def wkbMultiSurface : Nat := 12

/-- `GeometryConverter.is_multicurve` (lines 152-158). -/
def is_multicurve (geom : Geometry) : Bool :=
  geom.GetGeometryType == wkbMultiCurve ||
  geom.GetGeometryType == wkbMultiCurve + 1000 ||
  pyUpper geom.GetGeometryName == "MULTICURVE"

/-- `GeometryConverter.is_multisurface` (lines 160-166). -/
def is_multisurface (geom : Geometry) : Bool :=
  geom.GetGeometryType == wkbMultiSurface ||
  geom.GetGeometryType == wkbMultiSurface + 1000 ||
  pyUpper geom.GetGeometryName == "MULTISURFACE"

/-- The `curve_types` list of lines 183-187: the planar curve codes 8..13 and
their ISO Z counterparts 1008..1013 (`ogr.wkbCircularString`,
`ogr.wkbCompoundCurve`, `ogr.wkbCurvePolygon`, `ogr.wkbMultiCurve`,
`ogr.wkbMultiSurface`, `ogr.wkbCurve` and the `...Z` forms). -/
def curve_types : List Nat :=
  [8, 9, 10, 11, 12, 13, 1008, 1009, 1010, 1011, 1012, 1013]

/-- The curve-detection test of line 188:
`geom.GetGeometryType() in curve_types or "CURVE" in geom.GetGeometryName().upper()`. -/
def is_curve_typed (geom : Geometry) : Bool :=
  curve_types.contains geom.GetGeometryType ||
  strIn "CURVE".data (pyUpper geom.GetGeometryName).data

/-- Exceptions that can escape the embedded code. -/
inductive PyErr where
  | typeError
  | flattenError
deriving DecidableEq, Repr

/-- The osgeo.ogr geometry engine, external to the repository, modelled per the
specification's external-interface section: `flatten` is `GetLinearGeometry`
(`GeometryValue -> GeometryValue | Unsupported`, where `none` models the
operation being unsupported / raising for the given shape), and `segmentize` is
the segmentization operation (`(GeometryValue, tolerance) -> GeometryValue`). -/
structure Engine where
  flatten : Geometry → Option Geometry
  segmentize : Geometry → ℚ → Geometry

/-- `geom.AddGeometry(child)`: appends the child; per OGR, adding a
height-bearing child to a planar container promotes the container to 3D.
(In the script every code path that would actually add a child is preceded by a
one-argument call to `linearize_geometry`, which raises; see below.) -/
def addGeometry (parent child : Geometry) : Geometry :=
  Geometry.mk parent.tag (parent.hasZ || child.hasZ) (parent.children ++ [child])

/-- The one-argument recursive calls `GeometryConverter.linearize_geometry(subgeom)`
(line 137), `...(polygon-subgeom)` (line 147) and `...(sub)` (line 195):
`linearize_geometry` (line 170) declares `segmentize_tolerance` as a required
parameter with no default, so Python raises `TypeError` at the call site and the
callee's body is never entered. -/
def linearize_missing_tolerance (subgeom : Geometry) : Except PyErr (Option Geometry) :=
  .error .typeError

/-- The child loop of `convert_multicurve_to_multilinestring` (lines 135-139):
`linestring = GeometryConverter.linearize_geometry(subgeom)`; on a non-None
result the child is appended via `AddGeometry`. -/
def mc_loop : List Geometry → Geometry → Except PyErr Geometry
  | [], multiline => .ok multiline
  | subgeom :: rest, multiline =>
    match linearize_missing_tolerance subgeom with
    | .error e => .error e
    | .ok (some linestring) => mc_loop rest (addGeometry multiline linestring)
    | .ok none => mc_loop rest multiline

/-- `GeometryConverter.convert_multicurve_to_multilinestring` (lines 132-140):
creates `ogr.Geometry(ogr.wkbMultiLineString)` — a planar (2D) container — and
runs the child loop over `GetGeometryRef(0..count-1)`. -/
def convert_multicurve_to_multilinestring (geom : Geometry) : Except PyErr Geometry :=
  mc_loop geom.children (Geometry.mk .multiLineString false [])

/-- The child loop of `convert_multisurface_to_multipolygon` (lines 145-149). -/
def ms_loop : List Geometry → Geometry → Except PyErr Geometry
  | [], multipoly => .ok multipoly
  | subgeom :: rest, multipoly =>
    match linearize_missing_tolerance subgeom with
    | .error e => .error e
    | .ok (some polygon) => ms_loop rest (addGeometry multipoly polygon)
    | .ok none => ms_loop rest multipoly

/-- `GeometryConverter.convert_multisurface_to_multipolygon` (lines 142-150):
creates `ogr.Geometry(ogr.wkbMultiPolygon)` — planar — and runs the child loop. -/
def convert_multisurface_to_multipolygon (geom : Geometry) : Except PyErr Geometry :=
  ms_loop geom.children (Geometry.mk .multiPolygon false [])

/-- The post-segmentize child loop of lines 191-197: for each child `sub` (never
None for an index below `GetGeometryCount()`), call `linearize_geometry(sub)`
— one argument — and collect non-None results in order. -/
def child_loop : List Geometry → List Geometry → Except PyErr (List Geometry)
  | [], linearized_subs => .ok linearized_subs
  | sub :: rest, linearized_subs =>
    match linearize_missing_tolerance sub with
    | .error e => .error e
    | .ok (some linear_sub) => child_loop rest (linearized_subs ++ [linear_sub])
    | .ok none => child_loop rest linearized_subs

/-- `GeometryConverter.linearize_geometry` (lines 169-207), relative to an
engine `E` modelling osgeo.ogr:

* line 171-172: `if geom is None: return None`;
* lines 173-176: `geom = geom.GetLinearGeometry() or geom` inside
  `try/except Exception: pass` — a failing flatten keeps the geometry as is
  (an OGR geometry object is always truthy, so `or geom` fires only via the
  exception path);
* lines 178-181: the multicurve / multisurface re-typing;
* lines 183-197: the curve-type test, `geom.segmentize(segmentize_tolerance)`
  (modelled per the specification's segmentize interface), and the per-child
  loop whose one-argument recursive calls raise `TypeError`;
* lines 200-204: only when at least one child was linearized, remove all
  children (the parent's Z flag is untouched) and re-add the linearized ones;
* line 206: `geom = geom.GetLinearGeometry()` — *not* inside any try/except,
  so a failure here escapes the function (`PyErr.flattenError`). -/
def linearize_geometry (E : Engine) (geom : Option Geometry) (segmentize_tolerance : ℚ) :
    Except PyErr (Option Geometry) :=
  match geom with
  | none => .ok none
  | some g0 =>
    let g1 := (E.flatten g0).getD g0
    let step2 : Except PyErr Geometry :=
      if is_multicurve g1 then convert_multicurve_to_multilinestring g1
      else if is_multisurface g1 then convert_multisurface_to_multipolygon g1
      else .ok g1
    match step2 with
    | .error e => .error e
    | .ok g2 =>
      if is_curve_typed g2 then
        let g3 := E.segmentize g2 segmentize_tolerance
        match child_loop g3.children [] with
        | .error e => .error e
        | .ok linearized_subs =>
          let g4 :=
            if linearized_subs.isEmpty then g3
            else linearized_subs.foldl addGeometry (Geometry.mk g3.tag g3.hasZ [])
          match E.flatten g4 with
          | some g5 => .ok (some g5)
          | none => .error .flattenError
      else .ok (some g2)

/-- A tag is curve-bearing. -/
def GeomTag.isCurve : GeomTag → Bool
  | .circularString => true
  | .compoundCurve => true
  | .curvePolygon => true
  | .multiCurve => true
  | .multiSurface => true
  | .curve => true
  | _ => false

mutual

/-- A geometry is transitively curve-free: neither its own tag nor the tag of
any transitively contained child is curve-bearing. -/
def curveFree : Geometry → Bool
  | .mk t _ cs => !t.isCurve && curveFreeList cs

def curveFreeList : List Geometry → Bool
  | [] => true
  | c :: cs => curveFree c && curveFreeList cs

end

/-- An engine whose flatten operation is unsupported (raises) for every shape
and whose segmentize returns its input unchanged; used to exercise the
structural-recursion fallback paths of `linearize_geometry`. -/
def failEngine : Engine where
  flatten := fun _ => none
  segmentize := fun g _ => g

/-- A specification-conformant engine: flatten succeeds exactly on transitively
curve-free geometries (on which converting to "its linear equivalent" is the
identity) and is unsupported for curved shapes; segmentize returns its input. -/
def partialEngine : Engine where
  flatten := fun g => if curveFree g then some g else none
  segmentize := fun g _ => g

/-- Python's `int()` applied to a (rational-valued) number: truncation toward
zero. -/
def pyInt (q : ℚ) : ℤ :=
  Int.tdiv q.num (Int.ofNat q.den)

/-- Line 100: `total = 100.0 / source.featureCount() if source.featureCount() else 0`.
`featureCount()` is an integer (QGIS reports `-1` for an unknown count, which is
truthy in Python); the guarded value is the progress scale factor. -/
def pyTotal (featureCount : ℤ) : ℚ :=
  if featureCount ≠ 0 then 100 / (featureCount : ℚ) else 0

/-- The observable outcome of `GeometryLinearizer.processAlgorithm`'s feature
loop: the geometries added to the sink, the successive arguments of
`feedback.setProgress`, and the number of `pushWarning` calls. -/
structure ProcOutput where
  sink : List Geometry
  progressReports : List ℤ
  warnings : Nat

/-- The feature loop of `processAlgorithm` (lines 102-126).  A feature is
modelled by its geometry, `none` standing for a null geometry (line 107's
`if not geom: continue`).  The WKB round-trip through
`ogr.CreateGeometryFromWkb(geom.asWkb()).Clone()` is value-preserving (decode
after encode of a decodable geometry), so it is the identity here.  Cancellation
(`feedback.isCanceled()`) is modelled as never requested.  Note that line 126's
`feedback.setProgress(int(current * total))` uses `current`, the zero-based
`enumerate` index of the feature, and is skipped (like the sink insertion) for
features that `continue`. -/
def process_loop (E : Engine) (tolerance : ℚ) (total : ℚ) :
    Nat → List (Option Geometry) → ProcOutput → Except PyErr ProcOutput
  | _, [], acc => .ok acc
  | current, feature :: rest, acc =>
    match feature with
    | none => process_loop E tolerance total (current + 1) rest acc
    | some geom =>
      match linearize_geometry E (some geom) tolerance with
      | .error e => .error e
      | .ok none =>
        process_loop E tolerance total (current + 1) rest
          { acc with warnings := acc.warnings + 1 }
      | .ok (some linear_geom) =>
        process_loop E tolerance total (current + 1) rest
          { sink := acc.sink ++ [linear_geom],
            progressReports := acc.progressReports ++ [pyInt ((current : ℚ) * total)],
            warnings := acc.warnings }

/-- `GeometryLinearizer.processAlgorithm` (lines 81-128), restricted to its
feature loop: parameter handling and sink construction always succeed in the
modelled scenario (a valid source and sink).  `featureCount` is what the source
reports; `features` is what `getFeatures()` yields. -/
def processAlgorithm (E : Engine) (featureCount : ℤ) (features : List (Option Geometry))
    (tolerance : ℚ) : Except PyErr ProcOutput :=
  process_loop E tolerance (pyTotal featureCount) 0 features ⟨[], [], 0⟩

/-- A planar point. -/
def ptGeom : Geometry := Geometry.mk .point false []

/-- A planar line string. -/
def lsGeom : Geometry := Geometry.mk .lineString false []

/-- A planar circular string (childless simple curve). -/
def csGeom : Geometry := Geometry.mk .circularString false []

/-- A planar MultiCurve with one CircularString child. -/
def mcOneChild : Geometry := Geometry.mk .multiCurve false [csGeom]

/-- A planar MultiCurve with two CompoundCurve children. -/
def mcTwoChildren : Geometry :=
  Geometry.mk .multiCurve false
    [Geometry.mk .compoundCurve false [], Geometry.mk .compoundCurve false []]

/-- A height-bearing MultiCurve with one (height-bearing) LineString child. -/
def mcZOneChild : Geometry :=
  Geometry.mk .multiCurve true [Geometry.mk .lineString true []]

/-- A height-bearing, empty MultiCurve. -/
def mcZEmpty : Geometry := Geometry.mk .multiCurve true []

/-- A planar MultiSurface with one CurvePolygon child. -/
def msOneChild : Geometry :=
  Geometry.mk .multiSurface false [Geometry.mk .curvePolygon false []]

/-- A planar GeometryCollection containing one CircularString. -/
def gcCurveChild : Geometry := Geometry.mk .geometryCollection false [csGeom]

set_option maxRecDepth 4096

/-- The curve-detection test of line 188 agrees exactly with membership of the
tag in the curve-bearing kinds, for either dimensionality. -/
lemma is_curve_typed_eq_tag (g : Geometry) : is_curve_typed g = g.tag.isCurve := by
  rcases g with ⟨t, z, cs⟩
  show (curve_types.contains (t.code + if z then 1000 else 0) ||
    strIn "CURVE".data (pyUpper t.ogrName).data) = t.isCurve
  cases t <;> cases z <;> decide

/-- `is_multicurve` holds exactly for the MultiCurve tag (planar or Z). -/
lemma is_multicurve_eq_tag (g : Geometry) : is_multicurve g = (g.tag == GeomTag.multiCurve) := by
  rcases g with ⟨t, z, cs⟩
  show (((t.code + if z then 1000 else 0) == wkbMultiCurve) ||
    ((t.code + if z then 1000 else 0) == wkbMultiCurve + 1000) ||
    (pyUpper t.ogrName == "MULTICURVE")) = (t == GeomTag.multiCurve)
  cases t <;> cases z <;> decide

/-- `is_multisurface` holds exactly for the MultiSurface tag (planar or Z). -/
lemma is_multisurface_eq_tag (g : Geometry) :
    is_multisurface g = (g.tag == GeomTag.multiSurface) := by
  rcases g with ⟨t, z, cs⟩
  show (((t.code + if z then 1000 else 0) == wkbMultiSurface) ||
    ((t.code + if z then 1000 else 0) == wkbMultiSurface + 1000) ||
    (pyUpper t.ogrName == "MULTISURFACE")) = (t == GeomTag.multiSurface)
  cases t <;> cases z <;> decide

/-- A transitively curve-free geometry has a non-curve top-level tag. -/
lemma curveFree_tag {g : Geometry} (h : curveFree g = true) : g.tag.isCurve = false := by
  rcases g with ⟨t, z, cs⟩
  rw [curveFree, Bool.and_eq_true] at h
  obtain ⟨h1, _⟩ := h
  simpa using h1

/-- A geometry whose top-level tag is not curve-bearing passes none of the
script's three classification tests. -/
lemma not_curve_checks {g : Geometry} (h : g.tag.isCurve = false) :
    is_multicurve g = false ∧ is_multisurface g = false ∧ is_curve_typed g = false := by
  refine ⟨?_, ?_, ?_⟩
  · rw [is_multicurve_eq_tag]
    have : g.tag ≠ GeomTag.multiCurve := by
      intro heq
      rw [heq] at h
      exact absurd h (by decide)
    simpa using this
  · rw [is_multisurface_eq_tag]
    have : g.tag ≠ GeomTag.multiSurface := by
      intro heq
      rw [heq] at h
      exact absurd h (by decide)
    simpa using this
  · rw [is_curve_typed_eq_tag]
    exact h

/-- Path lemma: when the (possibly flatten-attempted) geometry is classified
neither as multicurve nor multisurface and is not curve-typed, it is returned
unchanged. -/
lemma lin_not_classified (E : Engine) {g g1 : Geometry} (t : ℚ)
    (hg1 : (E.flatten g).getD g = g1)
    (hmc : is_multicurve g1 = false) (hms : is_multisurface g1 = false)
    (hct : is_curve_typed g1 = false) :
    linearize_geometry E (some g) t = .ok (some g1) := by
  simp [linearize_geometry, hg1, hmc, hms, hct]

/-- When the opportunistic flatten succeeds with a transitively curve-free
result, that result passes no classification test and is returned unchanged. -/
lemma lin_flatten_success (E : Engine) {g0 y : Geometry} (t : ℚ)
    (hfl : E.flatten g0 = some y) (hcf : curveFree y = true) :
    linearize_geometry E (some g0) t = .ok (some y) := by
  obtain ⟨hmc, hms, hct⟩ := not_curve_checks (curveFree_tag hcf)
  exact lin_not_classified E t (by rw [hfl]; rfl) hmc hms hct

/-- Path lemma for multicurve-classified inputs: with no children the result is
the freshly-created planar MultiLineString container; with any child the
one-argument recursive call raises. -/
lemma lin_mc (E : Engine) (g : Geometry) (t : ℚ)
    (h : is_multicurve ((E.flatten g).getD g) = true) :
    (((E.flatten g).getD g).children = [] ∧
      linearize_geometry E (some g) t =
        .ok (some (Geometry.mk .multiLineString false []))) ∨
    (((E.flatten g).getD g).children ≠ [] ∧
      linearize_geometry E (some g) t = .error .typeError) := by
  cases hch : ((E.flatten g).getD g).children with
  | nil =>
    left
    refine ⟨rfl, ?_⟩
    have hconv : convert_multicurve_to_multilinestring ((E.flatten g).getD g) =
        .ok (Geometry.mk .multiLineString false []) := by
      rw [convert_multicurve_to_multilinestring, hch]
      rfl
    have hict : is_curve_typed (Geometry.mk .multiLineString false []) = false := by decide
    simp [linearize_geometry, h, hconv, hict]
  | cons c cs =>
    right
    refine ⟨List.cons_ne_nil c cs, ?_⟩
    have hconv : convert_multicurve_to_multilinestring ((E.flatten g).getD g) =
        .error .typeError := by
      rw [convert_multicurve_to_multilinestring, hch]
      rfl
    simp [linearize_geometry, h, hconv]

/-- Path lemma for multisurface-classified inputs, symmetric to `lin_mc` with a
planar MultiPolygon container. -/
lemma lin_ms (E : Engine) (g : Geometry) (t : ℚ)
    (h : is_multisurface ((E.flatten g).getD g) = true) :
    (((E.flatten g).getD g).children = [] ∧
      linearize_geometry E (some g) t =
        .ok (some (Geometry.mk .multiPolygon false []))) ∨
    (((E.flatten g).getD g).children ≠ [] ∧
      linearize_geometry E (some g) t = .error .typeError) := by
  have hmc : is_multicurve ((E.flatten g).getD g) = false := by
    rw [is_multicurve_eq_tag]
    rw [is_multisurface_eq_tag] at h
    have htag : ((E.flatten g).getD g).tag = GeomTag.multiSurface := by simpa using h
    rw [htag]
    decide
  cases hch : ((E.flatten g).getD g).children with
  | nil =>
    left
    refine ⟨rfl, ?_⟩
    have hconv : convert_multisurface_to_multipolygon ((E.flatten g).getD g) =
        .ok (Geometry.mk .multiPolygon false []) := by
      rw [convert_multisurface_to_multipolygon, hch]
      rfl
    have hict : is_curve_typed (Geometry.mk .multiPolygon false []) = false := by decide
    simp [linearize_geometry, h, hmc, hconv, hict]
  | cons c cs =>
    right
    refine ⟨List.cons_ne_nil c cs, ?_⟩
    have hconv : convert_multisurface_to_multipolygon ((E.flatten g).getD g) =
        .error .typeError := by
      rw [convert_multisurface_to_multipolygon, hch]
      rfl
    simp [linearize_geometry, h, hmc, hconv]

/-- Path lemma: in the curve branch, any child of the segmentized geometry makes
the one-argument recursive call raise. -/
lemma lin_curve_children (E : Engine) {g g1 : Geometry} (t : ℚ)
    (hg1 : (E.flatten g).getD g = g1)
    (hmc : is_multicurve g1 = false) (hms : is_multisurface g1 = false)
    (hct : is_curve_typed g1 = true) {c : Geometry} {cs : List Geometry}
    (hch : (E.segmentize g1 t).children = c :: cs) :
    linearize_geometry E (some g) t = .error .typeError := by
  have hcl : child_loop (E.segmentize g1 t).children [] = .error .typeError := by
    rw [hch]
    rfl
  simp [linearize_geometry, hg1, hmc, hms, hct, hcl]

/-- Path lemma: in the curve branch with a childless segmentized geometry, the
result is the unguarded final flatten of line 206 — its success value, or an
escaping failure. -/
lemma lin_curve_nochildren (E : Engine) {g g1 : Geometry} (t : ℚ)
    (hg1 : (E.flatten g).getD g = g1)
    (hmc : is_multicurve g1 = false) (hms : is_multisurface g1 = false)
    (hct : is_curve_typed g1 = true)
    (hch : (E.segmentize g1 t).children = []) :
    linearize_geometry E (some g) t =
      match E.flatten (E.segmentize g1 t) with
      | some g5 => .ok (some g5)
      | none => .error .flattenError := by
  have hcl : child_loop (E.segmentize g1 t).children [] = .ok [] := by
    rw [hch]
    rfl
  simp [linearize_geometry, hg1, hmc, hms, hct, hcl]

/-- `partialEngine`'s flatten succeeds only with transitively curve-free output. -/
lemma partialEngine_flatten_curveFree (g y : Geometry)
    (h : partialEngine.flatten g = some y) : curveFree y = true := by
  by_cases hc : curveFree g = true
  · have : g = y := by simpa [partialEngine, hc] using h
    rw [← this]
    exact hc
  · simp [partialEngine, hc] at h

/-- `partialEngine`'s flatten is the identity on transitively curve-free input. -/
lemma partialEngine_flatten_id (x : Geometry) (h : curveFree x = true) :
    partialEngine.flatten x = some x := by
  simp [partialEngine, h]

/-- `partialEngine`'s flatten never succeeds with a curve-bearing top-level tag. -/
lemma partialEngine_flatten_not_curve (g y : Geometry)
    (h : partialEngine.flatten g = some y) : y.tag.isCurve = false :=
  curveFree_tag (partialEngine_flatten_curveFree g y h)

/-- Under `partialEngine`, a transitively curve-free geometry is returned
unchanged by `linearize_geometry`. -/
lemma partial_lin (g : Geometry) (t : ℚ) (h : curveFree g = true) :
    linearize_geometry partialEngine (some g) t = .ok (some g) :=
  lin_flatten_success partialEngine t (partialEngine_flatten_id g h) h

/-- Evaluation of the feature loop under `partialEngine` on a list of present,
transitively curve-free geometries: every feature is added to the sink and the
progress report after each feature uses the zero-based feature index. -/
lemma process_loop_run (t total : ℚ) :
    ∀ (gs : List Geometry) (cur : Nat) (acc : ProcOutput),
      (∀ g ∈ gs, curveFree g = true) →
      process_loop partialEngine t total cur (gs.map some) acc =
        .ok ⟨acc.sink ++ gs,
          acc.progressReports ++
            (List.range gs.length).map (fun i => pyInt (((cur + i : Nat) : ℚ) * total)),
          acc.warnings⟩
  | [], cur, acc, _ => by simp [process_loop]
  | g :: gs, cur, acc, h => by
    have hg : curveFree g = true := h g (List.mem_cons_self g gs)
    have hrest : ∀ x ∈ gs, curveFree x = true := fun x hx => h x (List.mem_cons_of_mem g hx)
    have hlin := partial_lin g t hg
    have hprog : (List.range (gs.length + 1)).map
          (fun i => pyInt (((cur + i : Nat) : ℚ) * total)) =
        pyInt ((cur : ℚ) * total) ::
          (List.range gs.length).map (fun i => pyInt (((cur + 1 + i : Nat) : ℚ) * total)) := by
      rw [List.range_succ_eq_map, List.map_cons, List.map_map]
      refine congrArg₂ _ (by simp) ?_
      refine congrArg₂ _ (funext fun i => ?_) rfl
      have harith : cur + Nat.succ i = cur + 1 + i := by omega
      simp [Function.comp, harith]
    simp only [List.map_cons, List.length_cons, process_loop, hlin]
    rw [process_loop_run t total gs (cur + 1) _ hrest, hprog]
    simp [List.append_assoc]

/-- A planar, empty MultiCurve. -/
def mcEmpty : Geometry := Geometry.mk .multiCurve false []

/-- C1: the claim states that for every non-null decodable geometry and every
tolerance, `linearize_geometry` returns some geometry value or explicit absence
and never propagates an exception out of its own frame, the recursive per-child
calls completing without raising.  The code contradicts this: on a MultiCurve
input whose opportunistic flatten is unsupported, the per-child recursive call
of line 137 omits the required `segmentize_tolerance` argument, and the
resulting `TypeError` escapes `linearize_geometry`'s frame. -/
theorem C1_typeerror_escapes :
    linearize_geometry failEngine (some mcOneChild) 3 = .error .typeError := rfl

/-- C2 counterexample: the claim states the children of a collection reaching
the re-typing recursion are linearized with an implicit default tolerance.  On a
MultiSurface input reaching that recursion, the one-argument call raises
`TypeError` — no child is linearized with any tolerance. -/
theorem C2_cx :
    linearize_geometry failEngine (some msOneChild) 5 = .error .typeError := rfl

/-- C2 (amended): the recursive calls in the multi-curve re-typing, the
multi-surface re-typing and the post-segmentize child recursion do omit the
tolerance argument, but `linearize_geometry` declares no default for it, so each
such call raises `TypeError` instead of linearizing the child with a default. -/
theorem C2_missing_tolerance_raises (g c : Geometry) (cs : List Geometry)
    (h : g.children = c :: cs) :
    convert_multicurve_to_multilinestring g = .error .typeError ∧
    convert_multisurface_to_multipolygon g = .error .typeError ∧
    child_loop g.children [] = .error .typeError := by
  refine ⟨?_, ?_, ?_⟩
  · rw [show convert_multicurve_to_multilinestring g =
      mc_loop g.children (Geometry.mk .multiLineString false []) from rfl, h]
    rfl
  · rw [show convert_multisurface_to_multipolygon g =
      ms_loop g.children (Geometry.mk .multiPolygon false []) from rfl, h]
    rfl
  · rw [h]
    rfl

/-- C2 witness: the MultiCurve with one CircularString child triggers the
`TypeError` in each of the three recursion sites. -/
theorem C2_witness :
    mcOneChild.children = csGeom :: [] ∧
    (convert_multicurve_to_multilinestring mcOneChild = .error .typeError ∧
     convert_multisurface_to_multipolygon mcOneChild = .error .typeError ∧
     child_loop mcOneChild.children [] = .error .typeError) :=
  ⟨rfl, C2_missing_tolerance_raises mcOneChild csGeom [] rfl⟩

/-- C3 counterexample: the claim states no returned value transitively contains
a curve-bearing tag.  A GeometryCollection containing a CircularString, when the
opportunistic flatten is unsupported, passes none of the classification tests
and is returned unchanged, curve-bearing child included. -/
theorem C3_cx :
    linearize_geometry failEngine (some gcCurveChild) 3 = .ok (some gcCurveChild) ∧
    gcCurveChild.children = [csGeom] ∧
    csGeom.tag.isCurve = true ∧
    curveFree gcCurveChild = false :=
  ⟨rfl, rfl, rfl, rfl⟩

/-- C3 (amended): provided the flatten operation only ever succeeds with
non-curve-bearing results, the top-level subtype tag of any geometry returned by
`linearize_geometry` is never curve-bearing; curve-bearing children nested
inside linear containers can survive when the flatten fails (see the
counterexample). -/
theorem C3_top_level_no_curves (E : Engine)
    (hF : ∀ g y, E.flatten g = some y → y.tag.isCurve = false)
    (g : Geometry) (t : ℚ) (x : Geometry)
    (hlin : linearize_geometry E (some g) t = .ok (some x)) :
    x.tag.isCurve = false := by
  cases hmc : is_multicurve ((E.flatten g).getD g) with
  | true =>
    rcases lin_mc E g t hmc with ⟨_, heq⟩ | ⟨_, heq⟩
    · have hx : Geometry.mk GeomTag.multiLineString false [] = x := by
        have hh := heq.symm.trans hlin
        simpa using hh
      rw [← hx]
      decide
    · rw [heq] at hlin
      exact Except.noConfusion hlin
  | false =>
    cases hms : is_multisurface ((E.flatten g).getD g) with
    | true =>
      rcases lin_ms E g t hms with ⟨_, heq⟩ | ⟨_, heq⟩
      · have hx : Geometry.mk GeomTag.multiPolygon false [] = x := by
          have hh := heq.symm.trans hlin
          simpa using hh
        rw [← hx]
        decide
      · rw [heq] at hlin
        exact Except.noConfusion hlin
    | false =>
      cases hct : is_curve_typed ((E.flatten g).getD g) with
      | false =>
        have heq := lin_not_classified E t rfl hmc hms hct
        have hx : (E.flatten g).getD g = x := by
          have hh := heq.symm.trans hlin
          simpa using hh
        rw [← hx, ← is_curve_typed_eq_tag]
        exact hct
      | true =>
        cases hch : (E.segmentize ((E.flatten g).getD g) t).children with
        | cons c cs =>
          have heq := lin_curve_children E t rfl hmc hms hct hch
          rw [heq] at hlin
          exact Except.noConfusion hlin
        | nil =>
          have heq := lin_curve_nochildren E t rfl hmc hms hct hch
          cases hfl2 : E.flatten (E.segmentize ((E.flatten g).getD g) t) with
          | some g5 =>
            have h1 : linearize_geometry E (some g) t = .ok (some g5) := by
              rw [heq, hfl2]
            have hx : g5 = x := by
              have hh := h1.symm.trans hlin
              simpa using hh
            rw [← hx]
            exact hF _ _ hfl2
          | none =>
            have h1 : linearize_geometry E (some g) t = .error .flattenError := by
              rw [heq, hfl2]
            rw [h1] at hlin
            exact Except.noConfusion hlin

/-- C3 witness: applying the amended theorem to `partialEngine` and a planar
LineString input. -/
theorem C3_witness : lsGeom.tag.isCurve = false :=
  C3_top_level_no_curves partialEngine partialEngine_flatten_not_curve
    lsGeom 7 lsGeom rfl

/-- C4 counterexample: the claim states dimensionality is always preserved, in
particular by the re-typing containers.  A height-bearing empty MultiCurve whose
flatten is unsupported is re-typed into the planar container created at line
134, losing the height flag. -/
theorem C4_cx :
    linearize_geometry failEngine (some mcZEmpty) 3 =
      .ok (some (Geometry.mk .multiLineString false [])) ∧
    mcZEmpty.hasZ = true ∧
    (Geometry.mk GeomTag.multiLineString false []).hasZ = false :=
  ⟨rfl, rfl, rfl⟩

/-- C4 (amended): the containers created by the re-typing steps are always
created planar (`ogr.Geometry(ogr.wkbMultiLineString)` at line 134,
`ogr.Geometry(ogr.wkbMultiPolygon)` at line 144), regardless of the input's
dimensionality flag, so dimensionality is not preserved on the re-typing path. -/
theorem C4_retyped_planar (E : Engine) (g : Geometry) (t : ℚ) :
    (is_multicurve ((E.flatten g).getD g) = true →
      ((E.flatten g).getD g).children = [] →
      linearize_geometry E (some g) t =
        .ok (some (Geometry.mk .multiLineString false []))) ∧
    (is_multisurface ((E.flatten g).getD g) = true →
      ((E.flatten g).getD g).children = [] →
      linearize_geometry E (some g) t =
        .ok (some (Geometry.mk .multiPolygon false []))) := by
  constructor
  · intro h hnil
    rcases lin_mc E g t h with ⟨_, heq⟩ | ⟨hne, _⟩
    · exact heq
    · exact absurd hnil hne
  · intro h hnil
    rcases lin_ms E g t h with ⟨_, heq⟩ | ⟨hne, _⟩
    · exact heq
    · exact absurd hnil hne

/-- C4 witness: the amended theorem applied to the height-bearing empty
MultiCurve. -/
theorem C4_witness :
    linearize_geometry failEngine (some mcZEmpty) 3 =
      .ok (some (Geometry.mk .multiLineString false [])) :=
  (C4_retyped_planar failEngine mcZEmpty 3).1 (by decide) rfl

/-- C5: `linearize_geometry` of a null geometry returns absence (not an error)
for every engine and every tolerance — lines 171-172. -/
theorem C5_null_absence (E : Engine) (t : ℚ) :
    linearize_geometry E none t = .ok none := rfl

/-- C6 counterexample: the claim states a multi-curve input yields a container
of the successfully converted children (an empty container when none succeed).
For a MultiCurve with two children, the first one-argument per-child call raises
`TypeError`; no container is returned. -/
theorem C6_cx :
    linearize_geometry failEngine (some mcTwoChildren) 3 = .error .typeError := rfl

/-- C6 (amended): for a multicurve-classified input the new planar
multi-linestring container is returned only when the input has no children (the
empty container being a valid result, not a failure); with one or more children
the one-argument per-child recursion raises `TypeError` and no container is
returned. -/
theorem C6_empty_container_or_raise (E : Engine) (g : Geometry) (t : ℚ)
    (h : is_multicurve ((E.flatten g).getD g) = true) :
    (((E.flatten g).getD g).children = [] →
      linearize_geometry E (some g) t =
        .ok (some (Geometry.mk .multiLineString false []))) ∧
    (((E.flatten g).getD g).children ≠ [] →
      linearize_geometry E (some g) t = .error .typeError) := by
  rcases lin_mc E g t h with ⟨hnil, heq⟩ | ⟨hne, heq⟩
  · exact ⟨fun _ => heq, fun hcontra => absurd hnil hcontra⟩
  · exact ⟨fun hcontra => absurd hcontra hne, fun _ => heq⟩

/-- C6 witness: the empty planar MultiCurve yields the empty planar
MultiLineString container. -/
theorem C6_witness :
    linearize_geometry failEngine (some mcEmpty) 3 =
      .ok (some (Geometry.mk .multiLineString false [])) :=
  (C6_empty_container_or_raise failEngine mcEmpty 3 (by decide)).1 rfl

/-- C7: idempotence of `linearize_geometry`, under the specification's contract
for the external flatten operation: a success is transitively curve-free, and on
an already curve-free geometry flatten succeeds with an equal value (a linear
geometry's linear equivalent is itself).  Failing runs propagate the same
failure on both sides of the equation. -/
theorem C7_idempotent (E : Engine)
    (hF1 : ∀ g y, E.flatten g = some y → curveFree y = true)
    (hF2 : ∀ x, curveFree x = true → E.flatten x = some x)
    (geom : Option Geometry) (t : ℚ) :
    (linearize_geometry E geom t).bind (fun r => linearize_geometry E r t) =
      linearize_geometry E geom t := by
  cases geom with
  | none => rfl
  | some g0 =>
    cases hfl : E.flatten g0 with
    | some y =>
      have hcf := hF1 g0 y hfl
      have h1 := lin_flatten_success E t hfl hcf
      have h2 := lin_flatten_success E t (hF2 y hcf) hcf
      rw [h1]
      exact h2
    | none =>
      have hg1 : (E.flatten g0).getD g0 = g0 := by rw [hfl]; rfl
      cases hmc : is_multicurve g0 with
      | true =>
        have hmc2 : is_multicurve ((E.flatten g0).getD g0) = true := by
          rw [hg1]
          exact hmc
        rcases lin_mc E g0 t hmc2 with ⟨_, heq⟩ | ⟨_, heq⟩
        · rw [heq]
          exact lin_flatten_success E t (hF2 _ (by decide)) (by decide)
        · rw [heq]
          rfl
      | false =>
        cases hms : is_multisurface g0 with
        | true =>
          have hms2 : is_multisurface ((E.flatten g0).getD g0) = true := by
            rw [hg1]
            exact hms
          rcases lin_ms E g0 t hms2 with ⟨_, heq⟩ | ⟨_, heq⟩
          · rw [heq]
            exact lin_flatten_success E t (hF2 _ (by decide)) (by decide)
          · rw [heq]
            rfl
        | false =>
          cases hct : is_curve_typed g0 with
          | false =>
            have heq := lin_not_classified E t hg1 hmc hms hct
            rw [heq]
            exact heq
          | true =>
            cases hch : (E.segmentize g0 t).children with
            | cons c cs =>
              have heq := lin_curve_children E t hg1 hmc hms hct hch
              rw [heq]
              rfl
            | nil =>
              have heq := lin_curve_nochildren E t hg1 hmc hms hct hch
              cases hfl2 : E.flatten (E.segmentize g0 t) with
              | some g5 =>
                have h1 : linearize_geometry E (some g0) t = .ok (some g5) := by
                  rw [heq, hfl2]
                have hcf5 := hF1 _ _ hfl2
                rw [h1]
                exact lin_flatten_success E t (hF2 g5 hcf5) hcf5
              | none =>
                have h1 : linearize_geometry E (some g0) t = .error .flattenError := by
                  rw [heq, hfl2]
                rw [h1]
                rfl

/-- C7 witness: the idempotence theorem applied to the conformant
`partialEngine` and a planar point. -/
theorem C7_witness :
    (linearize_geometry partialEngine (some ptGeom) 3).bind
        (fun r => linearize_geometry partialEngine r 3) =
      linearize_geometry partialEngine (some ptGeom) 3 :=
  C7_idempotent partialEngine partialEngine_flatten_curveFree
    partialEngine_flatten_id (some ptGeom) 3

/-- C8 counterexample: the claim states a MultiCurve with N children yields a
MultiLineString with at most N children.  With N = 1 child, no MultiLineString
is produced at all: the per-child call raises `TypeError`. -/
theorem C8_cx :
    linearize_geometry failEngine (some mcZOneChild) 3 = .error .typeError := rfl

/-- C8 (amended): for a multicurve-classified input with N children, a
MultiLineString (with 0 ≤ N children) is produced only when N = 0; for N ≥ 1 the
conversion raises `TypeError` instead of producing a collection. -/
theorem C8_cardinality (E : Engine) (g : Geometry) (t : ℚ)
    (h : is_multicurve ((E.flatten g).getD g) = true) :
    (((E.flatten g).getD g).children.length = 0 →
      ∃ r, linearize_geometry E (some g) t = .ok (some r) ∧
        r.tag = GeomTag.multiLineString ∧
        r.children.length ≤ ((E.flatten g).getD g).children.length) ∧
    (0 < ((E.flatten g).getD g).children.length →
      linearize_geometry E (some g) t = .error .typeError) := by
  rcases lin_mc E g t h with ⟨hnil, heq⟩ | ⟨hne, heq⟩
  · refine ⟨fun _ => ⟨Geometry.mk .multiLineString false [], heq, rfl, Nat.zero_le _⟩, ?_⟩
    intro hpos
    rw [hnil] at hpos
    exact absurd hpos (by decide)
  · refine ⟨fun hlen => absurd (List.length_eq_zero.mp hlen) hne, fun _ => heq⟩

/-- C8 witness: the empty height-bearing MultiCurve yields a MultiLineString
with 0 ≤ 0 children. -/
theorem C8_witness :
    ∃ r, linearize_geometry failEngine (some mcZEmpty) 7 = .ok (some r) ∧
      r.tag = GeomTag.multiLineString ∧
      r.children.length ≤ ((failEngine.flatten mcZEmpty).getD mcZEmpty).children.length :=
  (C8_cardinality failEngine mcZEmpty 7 (by decide)).1 rfl

/-- C9 counterexample: the claim states that after the k-th processed feature
the reported progress is 100·k/total.  With featureCount = 1 and one feature,
the report after the first (k = 1) feature is int(0 · 100/1) = 0, not 100: line
126 uses the zero-based `enumerate` index. -/
theorem C9_cx :
    processAlgorithm partialEngine 1 [some ptGeom] 3 = .ok ⟨[ptGeom], [0], 0⟩ ∧
    (0 : ℤ) ≠ 100 := by
  refine ⟨?_, by decide⟩
  have h0 : processAlgorithm partialEngine 1 [some ptGeom] 3 =
      .ok ⟨[ptGeom], [pyInt ((0 : ℚ) * pyTotal 1)], 0⟩ := rfl
  rw [h0]
  norm_num [pyInt, pyTotal]

/-- C9 (amended): when the feature total is known, the harness reports progress
for the k-th successfully processed feature as int((k−1) · 100/total) — the
zero-based index of the feature is multiplied by the scale factor and truncated
— not 100·k/total. -/
theorem C9_progress_zero_based (fc : ℤ) (gs : List Geometry) (t : ℚ)
    (h : ∀ g ∈ gs, curveFree g = true) :
    processAlgorithm partialEngine fc (gs.map some) t =
      .ok ⟨gs, (List.range gs.length).map (fun i : ℕ => pyInt ((i : ℚ) * pyTotal fc)), 0⟩ := by
  rw [processAlgorithm, process_loop_run t (pyTotal fc) gs 0 ⟨[], [], 0⟩ h]
  simp only [List.nil_append, Nat.zero_add]

/-- C9 witness: two curve-free features with featureCount = 2. -/
theorem C9_witness :
    processAlgorithm partialEngine 2 ([ptGeom, lsGeom].map some) 5 =
      .ok ⟨[ptGeom, lsGeom],
        (List.range 2).map (fun i : ℕ => pyInt ((i : ℚ) * pyTotal 2)), 0⟩ :=
  C9_progress_zero_based 2 [ptGeom, lsGeom] 5 (by
    intro g hg
    rcases List.mem_cons.mp hg with h1 | h1
    · rw [h1]
      decide
    · rw [List.mem_singleton.mp h1]
      decide)

/-- C10: when the source reports zero features, the guarded expression of line
100 sets the progress scale factor to 0 instead of dividing by the count, and
the loop over the empty feature stream completes normally with empty output. -/
theorem C10_zero_feature_count (E : Engine) (t : ℚ) :
    pyTotal 0 = 0 ∧ processAlgorithm E 0 [] t = .ok ⟨[], [], 0⟩ := by
  refine ⟨?_, rfl⟩
  rw [pyTotal]
  simp
